import Mathlib

/-!
# Verification of the LinkedIn scraper session-lifecycle subsystem

Shallow embedding of `src/services/linkedin_scraper.py` (and the validation
step of `linkedin_fetch_agent` in `src/services/ai/linkedin_resume_graph.py`),
together with theorems settling the frozen claims about login polling,
progressive scrolling, content combination and validation, the session
registry, and the two orchestrator entry points.

Conventions of the embedding:
* Python strings become Lean `String`; `sub in s` (substring test) becomes
  `strContains s sub`; `s.lower()` becomes `strLower s`; `s.strip()` becomes
  `strip s`; `s[:500]` becomes `truncate500 s`.
* Wall-clock timestamps become `Nat` (`World.now`); `time.time()` reads the
  current `now` of the ambient `World`.
* The Selenium driver is modelled by the data the code reads from it: a trace
  of `(current_url, body text)` samples for the login poll, reported page
  heights for the scroll loop, and the extracted text blobs for the content
  pipeline.  Driver handles are identified by `Nat` ids; `driver.quit()` is
  recorded in `World.quitCalls`.
* Python falsiness of optional credential strings is modelled with `Option
  String` (`none` = absent or empty).
-/

set_option maxRecDepth 100000

deriving instance DecidableEq for Except

namespace LinkedInScraper

/-- Boolean contiguous-sublist test on character lists (helper for the
Python substring operator `in`). -/
def listInfix (sub : List Char) : List Char → Bool
  | [] => sub.isEmpty
  | c :: rest => sub.isPrefixOf (c :: rest) || listInfix sub rest

/-- Python `sub in s`: `sub` occurs contiguously in `s` (case-sensitive). -/
def strContains (s sub : String) : Bool :=
  listInfix sub.toList s.toList

/-- Python `s.lower()` (ASCII case folding suffices for the texts compared
by the scraper). -/
def strLower (s : String) : String :=
  String.mk (s.toList.map Char.toLower)

/-- Python `s.strip()`: drop leading and trailing whitespace. -/
def strip (s : String) : String :=
  String.mk (((s.toList.dropWhile Char.isWhitespace).reverse.dropWhile
    Char.isWhitespace).reverse)

/-- Python `s[:500]`, the body-text sample size used by `_poll_login` and the
content validator. -/
def truncate500 (s : String) : String :=
  String.mk (s.toList.take 500)

/-! ## Login state machine (`_poll_login`, lines 359-419) -/

/-- One observation of the live page: the driver's `current_url` and the
`<body>` text read in the same poll iteration. -/
structure PollSample where
  url : String
  body : String

/-- Outcome of `_poll_login`: either the `ValueError` raised on a hard login
failure, or the `(login_success, challenge_detected)` pair it returns. -/
inductive PollOutcome where
  | hardFailure
  | finished (loginSuccess challengeDetected : Bool)
deriving DecidableEq

/-- Line 380: the body-text sample signals a wrong password. -/
def hardFailureSignal (pageText : String) : Bool :=
  strContains (strLower pageText) "incorrect" || strContains (strLower pageText) "wrong"

/-- Lines 387 and 413: the current URL still matches a login/checkpoint/
challenge marker. -/
def urlLoginLike (url : String) : Bool :=
  ["login", "checkpoint", "challenge"].any (fun kw => strContains url kw)

/-- Lines 394-397: the in-loop challenge keyword set (eight keywords). -/
def loopChallengeSignal (pageLower : String) : Bool :=
  ["verification", "security", "challenge", "verify",
   "approve", "confirm", "recognize", "is this you"].any
    (fun kw => strContains pageLower kw)

/-- Line 416: the challenge keyword set of the final post-loop check.  Note
it omits "confirm" and "recognize", unlike `loopChallengeSignal`. -/
def finalChallengeSignal (pageLower : String) : Bool :=
  ["verification", "security", "challenge", "verify",
   "approve", "is this you"].any
    (fun kw => strContains pageLower kw)

/-- The polling loop of `_poll_login` (lines 372-419).  `samples i` is the
page observation of the i-th read; `rem` is the number of loop iterations
the budget still allows (the Python loop with `login_elapsed += 3` runs
`ceil(login_wait / 3)` iterations).  `rem = 0` is the post-loop final check
(lines 408-417), which re-reads the page once.  The second component of the
result counts how many page observations were consumed, witnessing early
termination. -/
def pollLoop (samples : Nat → PollSample) : Nat → Bool → Nat → PollOutcome × Nat
  | i, challengeDetected, 0 =>
    let s := samples i
    if urlLoginLike s.url then
      let pageText := truncate500 s.body
      (.finished false (challengeDetected || finalChallengeSignal (strLower pageText)),
       i + 1)
    else
      (.finished false challengeDetected, i + 1)
  | i, challengeDetected, rem + 1 =>
    let s := samples i
    let pageText := truncate500 s.body
    if hardFailureSignal pageText then
      (.hardFailure, i + 1)
    else if !urlLoginLike s.url then
      (.finished true challengeDetected, i + 1)
    else
      pollLoop samples (i + 1)
        (challengeDetected || loopChallengeSignal (strLower pageText)) rem

/-- `_poll_login(driver, login_wait)`: run the polling loop with the number
of iterations the `login_wait` budget allows (`ceil(login_wait / 3)` checks,
3 seconds apart). -/
def pollLogin (samples : Nat → PollSample) (loginWait : Nat) : PollOutcome × Nat :=
  pollLoop samples 0 false ((loginWait + 2) / 3)

/-! ## Progressive scroll (`_progressive_scroll`, lines 119-140) -/

/-- The scroll loop of `_progressive_scroll`.  `heights i` is the value the
i-th `document.body.scrollHeight` read reports (read 0 happens before the
loop).  Returns the list of scroll positions passed to `window.scrollTo`
inside the loop, in order.  The loop body adds 800 to the position, scrolls,
re-reads the height, and breaks when the position has reached the new height
and the height equals the previous read (lines 128-136). -/
def scrollLoop (heights : Nat → Nat) : Nat → Nat → Nat → Nat → List Nat
  | 0, _, _, _ => []
  | fuel + 1, i, pos, lastHeight =>
    if pos + 800 ≥ heights i ∧ heights i = lastHeight then
      [pos + 800]
    else
      (pos + 800) :: scrollLoop heights fuel (i + 1) (pos + 800) (heights i)

/-- `_progressive_scroll(driver, pause, max_scrolls)`: the in-loop scroll
actions paired with the final scroll position — the function unconditionally
ends with `window.scrollTo(0, 0)` (line 139). -/
def progressiveScroll (heights : Nat → Nat) (maxScrolls : Nat) : List Nat × Nat :=
  (scrollLoop heights maxScrolls 1 0 (heights 0), 0)

/-! ## Content extraction and validation (`_scrape_profile_content`, lines 422-511) -/

/-- The text inputs `_scrape_profile_content` obtains from the driver:
the section-structured main-page text (`_extract_section_text`, step 5), the
time-budget check before step 6, the concatenated detail-page text
(`_expand_show_all_buttons`), the raw `main.innerText` fallback read by
step 7, and the body text sampled by the failure diagnostics. -/
structure ContentInput where
  mainSectionText : String
  budgetOkDetail : Bool
  detailText : String
  mainInnerText : String
  bodyText : String

/-- The three `ValueError`s of `_scrape_profile_content` (lines 487-507). -/
inductive ContentError where
  | profileNotFound
  | tooShort (nChars : Nat)
  | noProfileSignal
deriving DecidableEq

/-- Step 6 (lines 459-462): detail pages are visited only while the time
budget allows; otherwise `detail_text` stays the empty string. -/
def effectiveDetailText (inp : ContentInput) : String :=
  if inp.budgetOkDetail then inp.detailText else ""

/-- Step 7 (lines 464-484): combine the extracted texts.  Detail-page text
is primary when its stripped length exceeds 100; it is merged with the
section text, except that the raw main text replaces a section text of
stripped length under 200 (when the raw text is nonempty).  Otherwise a
nonempty section text of stripped length over 100 is used alone; otherwise
the raw main text is the last resort. -/
def combineContent (inp : ContentInput) : String :=
  let detailText := effectiveDetailText inp
  let mainSectionText := inp.mainSectionText
  if detailText ≠ "" ∧ (strip detailText).length > 100 then
    if (strip mainSectionText).length < 200 ∧ inp.mainInnerText ≠ "" then
      inp.mainInnerText ++ "\n\n" ++ detailText
    else
      mainSectionText ++ "\n\n" ++ detailText
  else if mainSectionText ≠ "" ∧ (strip mainSectionText).length > 100 then
    mainSectionText
  else
    inp.mainInnerText

/-- Lines 499-502: the profile-signal keyword set of the scraper's own
final gate — seven keywords. -/
def scraperSignalKeywords : List String :=
  ["experience", "education", "skills", "===section:",
   "present", "full-time", "part-time"]

/-- Line 499: the lower-cased combined text contains a scraper signal keyword. -/
def hasScraperSignal (combinedLower : String) : Bool :=
  scraperSignalKeywords.any (fun kw => strContains combinedLower kw)

/-- `_scrape_profile_content` result: the combination step followed by the
validation gates (lines 486-511).  A combined text that is empty or of
stripped length under 200 raises the not-found or too-short error (choosing
by the body text); otherwise a text with no signal keyword raises the
no-signal error; otherwise the combined text is returned. -/
def scrapeProfileContent (inp : ContentInput) : Except ContentError String :=
  let combined := combineContent inp
  if combined = "" ∨ (strip combined).length < 200 then
    let bodyText := truncate500 inp.bodyText
    if strContains (strLower bodyText) "page not found" ∨
        strContains (strLower bodyText) "this page doesn" then
      .error .profileNotFound
    else
      .error (.tooShort (strip combined).length)
  else if !hasScraperSignal (strLower combined) then
    .error .noProfileSignal
  else
    .ok combined

/-! ## Downstream fetch-agent validation
(`linkedin_fetch_agent`, `src/services/ai/linkedin_resume_graph.py`,
lines 61-82) -/

/-- The two rejections of the fetch agent's quality gate. -/
inductive FetchError where
  | emptyOrTooShort
  | noProfileSignals
deriving DecidableEq

/-- Lines 66-69 of `linkedin_resume_graph.py`: the fetch agent's profile
signal set — nineteen keywords, a superset of `scraperSignalKeywords`. -/
def fetchAgentSignalKeywords : List String :=
  ["experience", "education", "skills", "===section:",
   "present", "full-time", "part-time", "yrs", "mos",
   "manager", "engineer", "developer", "analyst", "lead",
   "director", "consultant", "university", "bachelor", "master"]

/-- Line 70: some fetch-agent keyword occurs in the lower-cased text. -/
def hasFetchAgentSignal (textLower : String) : Bool :=
  fetchAgentSignalKeywords.any (fun kw => strContains textLower kw)

/-- Lines 61-82 of `linkedin_resume_graph.py`: the fetch agent checks the
scraper's returned text — first the 50-character fast gate (line 61), then
the 200-character plus 19-keyword quality gate (line 72). -/
def fetchAgentValidate (profileText : String) : Except FetchError String :=
  if profileText = "" ∨ (strip profileText).length < 50 then
    .error .emptyOrTooShort
  else if (strip profileText).length < 200 ∨ !hasFetchAgentSignal (strLower profileText) then
    .error .noProfileSignals
  else
    .ok profileText

/-! ## Session registry (module-level `_active_sessions`, lines 25-70 and
587-601) -/

/-- One cached session: `{"driver": ..., "profile_url": ..., "created": ...}`
with the driver represented by its id. -/
structure SessionData where
  driverId : Nat
  profileUrl : String
  created : Nat
deriving DecidableEq

/-- The process-wide mutable state the scraper touches: the session map
(insertion-ordered, like a Python dict), the record of `driver.quit()`
calls, a supply of fresh driver ids, and the current wall-clock time. -/
structure World where
  sessions : List (String × SessionData)
  quitCalls : List Nat
  nextDriverId : Nat
  now : Nat
deriving DecidableEq

/-- Dict lookup `_active_sessions.get(sid)`. -/
def lookupSession (sid : String) : List (String × SessionData) → Option SessionData
  | [] => none
  | (k, v) :: rest => if k = sid then some v else lookupSession sid rest

/-- Unfolding equation of `lookupSession` on a cons cell. -/
theorem lookupSession_cons (sid k : String) (v : SessionData)
    (rest : List (String × SessionData)) :
    lookupSession sid ((k, v) :: rest) =
      if k = sid then some v else lookupSession sid rest := rfl

/-- Dict removal `_active_sessions.pop(sid, None)` (entry removal only). -/
def removeSession (sid : String) (sessions : List (String × SessionData)) :
    List (String × SessionData) :=
  sessions.filter (fun p => p.1 ≠ sid)

/-- Record a `driver.quit()` call. -/
def quitDriver (d : Nat) (w : World) : World :=
  { w with quitCalls := w.quitCalls ++ [d] }

/-- Remove a session entry from the world without quitting anything. -/
def popSession (sid : String) (w : World) : World :=
  { w with sessions := removeSession sid w.sessions }

/-- `_cleanup_stale_sessions()` (lines 43-58): quit and remove every entry
with `now - created > 120`. -/
def cleanupStaleSessions (w : World) : World :=
  let stale := w.sessions.filter (fun p => w.now - p.2.created > 120)
  { w with
    sessions := w.sessions.filter (fun p => ¬ w.now - p.2.created > 120),
    quitCalls := w.quitCalls ++ stale.map (fun p => p.2.driverId) }

/-- `cleanup_session(sid)` (lines 61-70): pop the entry and quit its driver
when present. -/
def cleanupSession (sid : String) (w : World) : World :=
  match lookupSession sid w.sessions with
  | none => popSession sid w
  | some data => quitDriver data.driverId (popSession sid w)

/-- Lines 589-601 of `scrape_linkedin_profile`: under the lock, pop any
existing entry for `sid`, quit its driver (best effort), then insert the
new entry with `created = time.time()`. -/
def parkSession (sid : String) (d : Nat) (profileUrl : String) (w : World) : World :=
  let old := lookupSession sid w.sessions
  let w₁ := popSession sid w
  let w₂ := match old with
    | some data => quitDriver data.driverId w₁
    | none => w₁
  { w₂ with sessions := w₂.sessions ++ [(sid, ⟨d, profileUrl, w.now⟩)] }

/-- Lines 692-694 of `resume_linkedin_session`: refresh the `created`
timestamp of the entry for `sid`, extending its TTL. -/
def refreshSession (sid : String) (w : World) : World :=
  let refreshed := w.sessions.map
    (fun p => (p.1, if p.1 = sid then { p.2 with created := w.now } else p.2))
  { w with sessions := refreshed }

/-! ## Orchestrator: `scrape_linkedin_profile` (lines 514-629) -/

/-- The caller-supplied arguments of `scrape_linkedin_profile` together
with the environment credentials (`LinkedinLogin` / `LinkedinPassword`);
`none` models an absent (or falsy empty) value. -/
structure ScrapeInput where
  profileUrl : String
  email : Option String
  password : Option String
  envEmail : Option String
  envPassword : Option String
  loginWait : Option Nat
  sessionId : Option String

/-- What the freshly launched driver will report during this call: whether
locating the login form fails (any exception before polling starts), the
poll-time page observations, and the content-extraction inputs. -/
structure DriverBehavior where
  loginFormFails : Bool
  samples : Nat → PollSample
  content : ContentInput

/-- The distinguishable exits of `scrape_linkedin_profile`. -/
inductive ScrapeResult where
  | credentialsMissing
  | loginSetupError
  | hardFailure
  | securityChallenge (sessionId : String)
  | challengeTimeoutNoSession
  | contentError (e : ContentError)
  | ok (text : String)
deriving DecidableEq

/-- Python `arg or fallback` on credential strings. -/
def resolveCred (arg fallback : Option String) : Option String :=
  match arg with
  | some v => some v
  | none => fallback

/-- `scrape_linkedin_profile(profile_url, email, password, login_wait,
session_id)`: sweep stale sessions; resolve credentials (raising before any
driver exists if absent); launch a driver; submit the login form; poll; on
an unresolved challenge park the driver (with a session id) or fail
(without one); otherwise extract content.  The `finally` block quits the
driver on every path except the parked one (lines 627-629). -/
def scrape (inp : ScrapeInput) (beh : DriverBehavior) (w : World) :
    ScrapeResult × World :=
  let w := cleanupStaleSessions w
  match resolveCred inp.email inp.envEmail, resolveCred inp.password inp.envPassword with
  | some _, some _ =>
    let d := w.nextDriverId
    let w := { w with nextDriverId := d + 1 }
    if beh.loginFormFails then
      (.loginSetupError, quitDriver d w)
    else
      let loginWait := inp.loginWait.getD 30
      match (pollLogin beh.samples loginWait).1 with
      | .hardFailure => (.hardFailure, quitDriver d w)
      | .finished loginSuccess challengeDetected =>
        if !loginSuccess && challengeDetected then
          match inp.sessionId with
          | some sid => (.securityChallenge sid, parkSession sid d inp.profileUrl w)
          | none => (.challengeTimeoutNoSession, quitDriver d w)
        else
          match scrapeProfileContent beh.content with
          | .ok t => (.ok t, quitDriver d w)
          | .error e => (.contentError e, quitDriver d w)
  | _, _ => (.credentialsMissing, w)

/-! ## Orchestrator: `resume_linkedin_session` (lines 632-721) -/

/-- What the parked driver will report during a resume call: whether the
liveness probe (`driver.current_url`) succeeds, the poll-time page
observations, and the content-extraction inputs. -/
structure ResumeBehavior where
  driverAlive : Bool
  samples : Nat → PollSample
  content : ContentInput

/-- The distinguishable exits of `resume_linkedin_session`. -/
inductive ResumeResult where
  | noActiveSession
  | sessionDead
  | hardFailure
  | securityChallenge (sessionId : String)
  | loginNotComplete
  | contentError (e : ContentError)
  | ok (text : String)
deriving DecidableEq

/-- `resume_linkedin_session(session_id, profile_url, login_wait)`: look up
the parked session (failing without touching a driver when absent); probe
liveness (on a dead driver the entry is popped and the raised error's
`finally` still attempts `quit()`); re-enter the polling loop; on a renewed
challenge refresh the TTL and keep the session; on an inconclusive
non-success raise the unexpected-state error; on success extract content.
The `finally` block (lines 712-721) pops the entry and quits the driver on
every path except the renewed-challenge one. -/
def resumeSession (sid : String) (profileUrl : String) (loginWait : Nat)
    (beh : ResumeBehavior) (w : World) : ResumeResult × World :=
  match lookupSession sid w.sessions with
  | none => (.noActiveSession, w)
  | some data =>
    let d := data.driverId
    if !beh.driverAlive then
      (.sessionDead, quitDriver d (popSession sid w))
    else
      match (pollLogin beh.samples loginWait).1 with
      | .hardFailure => (.hardFailure, quitDriver d (popSession sid w))
      | .finished loginSuccess challengeDetected =>
        if !loginSuccess then
          if challengeDetected then
            (.securityChallenge sid, refreshSession sid w)
          else
            (.loginNotComplete, quitDriver d (popSession sid w))
        else
          match scrapeProfileContent beh.content with
          | .ok t => (.ok t, quitDriver d (popSession sid w))
          | .error e => (.contentError e, quitDriver d (popSession sid w))

/-! ## Helper lemmas: progressive scroll -/

/-- The scroll loop performs at most `fuel` scroll actions. -/
theorem scrollLoop_length_le (heights : Nat → Nat) (fuel : Nat) :
    ∀ i pos lastHeight, (scrollLoop heights fuel i pos lastHeight).length ≤ fuel := by
  induction fuel with
  | zero => intro i pos lastHeight; simp [scrollLoop]
  | succ f ih =>
    intro i pos lastHeight
    simp only [scrollLoop]
    split
    · simp
    · simpa using Nat.succ_le_succ (ih (i + 1) (pos + 800) (heights i))

/-- The scroll loop, started at read index `j` with position `800 * (j - 1)`
and last height `heights (j - 1)`, performs exactly `d + 1` scroll actions
when the break condition first holds at read `j + d` and the fuel suffices. -/
theorem scrollLoop_length_of_first_stop (heights : Nat → Nat) :
    ∀ (d j fuel : Nat), 1 ≤ j → d + 1 ≤ fuel →
      800 * (j + d) ≥ heights (j + d) →
      heights (j + d) = heights (j + d - 1) →
      (∀ e, e < d →
        ¬(800 * (j + e) ≥ heights (j + e) ∧ heights (j + e) = heights (j + e - 1))) →
      (scrollLoop heights fuel j (800 * (j - 1)) (heights (j - 1))).length = d + 1 := by
  intro d
  induction d with
  | zero =>
    intro j fuel hj hfuel hge heq _
    obtain ⟨f, rfl⟩ : ∃ f, fuel = f + 1 := ⟨fuel - 1, by omega⟩
    have hcond : 800 * (j - 1) + 800 ≥ heights j ∧ heights j = heights (j - 1) := by
      refine ⟨?_, by simpa using heq⟩
      have hge' : 800 * j ≥ heights j := by simpa using hge
      omega
    simp [scrollLoop, if_pos hcond]
  | succ d ih =>
    intro j fuel hj hfuel hge heq hne
    obtain ⟨f, rfl⟩ : ∃ f, fuel = f + 1 := ⟨fuel - 1, by omega⟩
    have hnb : ¬(800 * (j - 1) + 800 ≥ heights j ∧ heights j = heights (j - 1)) := by
      intro hc
      refine hne 0 (by omega) ?_
      simp only [Nat.add_zero]
      exact ⟨by omega, hc.2⟩
    rw [scrollLoop, if_neg hnb, List.length_cons]
    have h800 : 800 * (j - 1) + 800 = 800 * ((j + 1) - 1) := by omega
    have hlast : heights j = heights ((j + 1) - 1) := rfl
    rw [h800, hlast]
    have e1 : j + 1 + d = j + (d + 1) := by omega
    have hrec := ih (j + 1) f (by omega) (by omega)
      (by rw [e1]; exact hge) (by rw [e1]; exact heq)
      (fun e he => by
        have e3 : j + 1 + e = j + (e + 1) := by omega
        rw [e3]
        exact hne (e + 1) (by omega))
    rw [hrec]

/-! ## C5: progressive-scroll termination -/

/-- C5 counterexample: the claim says a page whose height stabilizes after
k increments (k < max_scrolls) gets exactly k + 1 scroll actions.  A page of
constant height 2000 stabilizes immediately (k = 0, every read equals the
previous one), yet `_progressive_scroll` performs 3 scroll actions, because
the loop additionally requires the scroll position (800 per increment) to
have reached the reported height before it breaks (line 134). -/
theorem c5_counterexample :
    (fun _ : Nat => 2000) 1 = (fun _ : Nat => 2000) 0 ∧
    0 + 1 < 12 ∧
    progressiveScroll (fun _ => 2000) 12 = ([800, 1600, 2400], 0) ∧
    ([800, 1600, 2400] : List Nat).length ≠ 0 + 1 :=
  ⟨rfl, by omega, rfl, by decide⟩

/-- C5 (amended): the scroll loop breaks at the first read i (1 ≤ i) where
the scroll position 800·i has reached the reported height AND the height
equals the previous read.  Hence, for a page whose height stabilizes at
read k+1 with k+1 ≤ max_scrolls and whose stabilized height is at most
800·(k+1) (the position has caught up), and which triggered no earlier
break, exactly k+1 scroll actions are performed and the final scroll
position is 0; in general the loop never runs more than max_scrolls
iterations. -/
theorem c5_scroll_termination_amended :
    (∀ (heights : Nat → Nat) (maxScrolls : Nat),
      (progressiveScroll heights maxScrolls).1.length ≤ maxScrolls) ∧
    (∀ (heights : Nat → Nat) (k maxScrolls : Nat),
      k + 1 ≤ maxScrolls →
      heights (k + 1) = heights k →
      800 * (k + 1) ≥ heights (k + 1) →
      (∀ i, 1 ≤ i → i ≤ k →
        ¬(800 * i ≥ heights i ∧ heights i = heights (i - 1))) →
      (progressiveScroll heights maxScrolls).1.length = k + 1 ∧
      (progressiveScroll heights maxScrolls).2 = 0) := by
  constructor
  · intro heights maxScrolls
    exact scrollLoop_length_le heights maxScrolls 1 0 (heights 0)
  · intro heights k maxScrolls hk hstab hreach hfirst
    refine ⟨?_, rfl⟩
    have key := scrollLoop_length_of_first_stop heights k 1 maxScrolls (Nat.le_refl 1) hk
      (by rw [Nat.add_comm 1 k]; exact hreach)
      (by rw [Nat.add_comm 1 k]; simpa using hstab)
      (fun e he => by
        rw [Nat.add_comm 1 e]
        exact hfirst (e + 1) (by omega) (by omega))
    simpa [progressiveScroll] using key

/-- C5 witness: a page of constant height 500 (≤ 800) stabilizes at the
first read and the loop performs exactly one scroll action, ending at
position 0; the loop bound holds at a concrete instance too. -/
theorem c5_scroll_termination_amended_witness :
    (progressiveScroll (fun _ => 2123) 5).1.length ≤ 5 ∧
    (progressiveScroll (fun _ => 500) 12).1.length = 0 + 1 ∧
    (progressiveScroll (fun _ => 500) 12).2 = 0 := by
  refine ⟨c5_scroll_termination_amended.1 (fun _ => 2123) 5, ?_, ?_⟩
  · exact (c5_scroll_termination_amended.2 (fun _ => 500) 0 12 (by omega) rfl (by decide)
      (fun i h1 h2 => by omega)).1
  · exact (c5_scroll_termination_amended.2 (fun _ => 500) 0 12 (by omega) rfl (by decide)
      (fun i h1 h2 => by omega)).2

/-! ## C6: login hard-failure short-circuit -/

/-- C6: on any iteration the polling loop still runs (remaining budget
`rem + 1`), a body sample containing "incorrect" or "wrong"
(case-insensitive) terminates the poll immediately with the hard failure,
consuming only that one observation — before any URL-based success or
challenge classification (the result does not depend on the sample's URL)
and without spending the remaining budget.  Consequently `_poll_login` with
a positive budget and a hard-failure body on the first poll raises after a
single observation. -/
theorem c6_hard_failure_short_circuit :
    (∀ (samples : Nat → PollSample) (i : Nat) (challengeDetected : Bool) (rem : Nat),
      hardFailureSignal (truncate500 (samples i).body) = true →
      pollLoop samples i challengeDetected (rem + 1) = (.hardFailure, i + 1)) ∧
    (∀ (samples : Nat → PollSample) (loginWait : Nat),
      0 < loginWait →
      hardFailureSignal (truncate500 (samples 0).body) = true →
      pollLogin samples loginWait = (.hardFailure, 1)) := by
  have hloop : ∀ (samples : Nat → PollSample) (i : Nat) (challengeDetected : Bool)
      (rem : Nat), hardFailureSignal (truncate500 (samples i).body) = true →
      pollLoop samples i challengeDetected (rem + 1) = (.hardFailure, i + 1) := by
    intro samples i challengeDetected rem h
    simp [pollLoop, h]
  refine ⟨hloop, ?_⟩
  intro samples loginWait hw h
  obtain ⟨rem, hrem⟩ : ∃ rem, (loginWait + 2) / 3 = rem + 1 :=
    ⟨(loginWait + 2) / 3 - 1, by omega⟩
  unfold pollLogin
  rw [hrem]
  exact hloop samples 0 false rem h

/-- The driver trace of the C6 witness: a login page whose body reports an
incorrect password on every poll. -/
def c6Samples : Nat → PollSample := fun _ =>
  ⟨"https://www.linkedin.com/login", "Incorrect password. Try again."⟩

/-- C6 witness: with a 30-second budget (10 poll iterations available), the
hard-failure body on the first poll ends the loop after one observation. -/
theorem c6_hard_failure_short_circuit_witness :
    0 < 30 ∧
    hardFailureSignal (truncate500 (c6Samples 0).body) = true ∧
    pollLogin c6Samples 30 = (.hardFailure, 1) :=
  ⟨by omega, by decide,
   c6_hard_failure_short_circuit.2 c6Samples 30 (by omega) (by decide)⟩

/-! ## C7: challenge timeout-variant classification -/

/-- The driver trace of the C7 counterexample: the in-loop observation has
no challenge keyword; the final observation is still on a checkpoint URL
with body "confirm". -/
def c7Samples : Nat → PollSample := fun i =>
  if i = 0 then ⟨"https://www.linkedin.com/login", "please wait"⟩
  else ⟨"https://www.linkedin.com/checkpoint/challenge/x", "confirm"⟩

/-- C7 counterexample: the budget (3s → one iteration) is exhausted without
success, the final URL matches a challenge marker, and the final body
contains "confirm" — a keyword of the claim's challenge set (it is in the
in-loop set `loopChallengeSignal`) — yet `_poll_login` reports
`challenge_detected = false`, because the final post-loop check (line 416)
omits "confirm" and "recognize" from its keyword list. -/
theorem c7_counterexample :
    urlLoginLike (c7Samples 1).url = true ∧
    strContains (strLower (truncate500 (c7Samples 1).body)) "confirm" = true ∧
    loopChallengeSignal (strLower (truncate500 (c7Samples 1).body)) = true ∧
    finalChallengeSignal (strLower (truncate500 (c7Samples 1).body)) = false ∧
    pollLogin c7Samples 3 = (.finished false false, 2) :=
  ⟨by decide, by decide, by decide, by decide, by decide⟩

/-- C7 (amended): when the poll budget is exhausted without success, the
outcome is classified as challenge-pending exactly when a challenge was
already detected during an in-loop iteration (with the eight-keyword set)
or the final observation is on a login/checkpoint/challenge URL and its
body contains a keyword of the reduced six-keyword set (verification,
security, challenge, verify, approve, "is this you") — "confirm" and
"recognize" count only during in-loop sampling. -/
theorem c7_challenge_timeout_amended (samples : Nat → PollSample) (i : Nat)
    (challengeDetected : Bool) :
    pollLoop samples i challengeDetected 0 =
      (.finished false
        (challengeDetected ||
          (urlLoginLike (samples i).url &&
            finalChallengeSignal (strLower (truncate500 (samples i).body)))),
       i + 1) := by
  cases h : urlLoginLike (samples i).url <;> simp [pollLoop, h]

/-! ## C3: the signal gate of the scraper's final validation -/

/-- A 216-character text consisting only of the word "engineer": it carries
a keyword of the claim's 19-keyword set but none of the seven keywords the
scraper's own gate actually checks. -/
def c3Text : String := String.mk ((List.replicate 24 "engineer ".toList).flatten)

/-- Extraction inputs whose combined text is `c3Text` (section text alone
is substantial; no detail text, no raw fallback needed). -/
def c3Input : ContentInput :=
  { mainSectionText := c3Text, budgetOkDetail := false, detailText := "",
    mainInnerText := "", bodyText := "" }

/-- C3 counterexample: a combined text of stripped length ≥ 200 that
contains "engineer" — a member of the claim's keyword set (it satisfies
the 19-keyword predicate) — is nevertheless rejected by
`_scrape_profile_content` with the no-profile-signal error, because the
scraper's gate (lines 499-502) checks only the seven keywords
{experience, education, skills, ===section:, present, full-time,
part-time}. -/
theorem c3_counterexample :
    200 ≤ (strip (combineContent c3Input)).length ∧
    strContains (strLower (combineContent c3Input)) "engineer" = true ∧
    hasFetchAgentSignal (strLower (combineContent c3Input)) = true ∧
    hasScraperSignal (strLower (combineContent c3Input)) = false ∧
    scrapeProfileContent c3Input = .error .noProfileSignal :=
  ⟨by decide, by decide, by decide, by decide, by decide⟩

/-- C3 (amended): for every extraction whose combined text reaches the
final validation with stripped length ≥ 200, the attempt succeeds iff the
lower-cased combined text contains one of the scraper's seven keywords
{experience, education, skills, ===section:, present, full-time,
part-time}; the 19-keyword set of the claim belongs to the downstream
fetch agent (`linkedin_resume_graph.py`), whose gate the scraper-rejected
text never reaches. -/
theorem c3_signal_gate_amended (inp : ContentInput)
    (hlen : 200 ≤ (strip (combineContent inp)).length) :
    scrapeProfileContent inp =
      (if hasScraperSignal (strLower (combineContent inp)) then
        Except.ok (combineContent inp)
      else
        Except.error ContentError.noProfileSignal) := by
  have hne : ¬(combineContent inp = "" ∨ (strip (combineContent inp)).length < 200) := by
    rintro (h | h)
    · rw [h] at hlen
      exact absurd hlen (by decide)
    · omega
  simp only [scrapeProfileContent]
  rw [if_neg hne]
  cases h : hasScraperSignal (strLower (combineContent inp)) <;> simp [h]

/-- A 231-character text consisting of the word "experience": it passes the
scraper's seven-keyword gate. -/
def c3WitnessText : String :=
  String.mk ((List.replicate 21 "experience ".toList).flatten)

/-- Extraction inputs whose combined text is `c3WitnessText`. -/
def c3WitnessInput : ContentInput :=
  { mainSectionText := c3WitnessText, budgetOkDetail := false, detailText := "",
    mainInnerText := "", bodyText := "" }

/-- C3 witness: a concrete combined text of stripped length ≥ 200
containing "experience" passes the gate. -/
theorem c3_signal_gate_amended_witness :
    200 ≤ (strip (combineContent c3WitnessInput)).length ∧
    scrapeProfileContent c3WitnessInput =
      (if hasScraperSignal (strLower (combineContent c3WitnessInput)) then
        Except.ok (combineContent c3WitnessInput)
      else
        Except.error ContentError.noProfileSignal) :=
  ⟨by decide, c3_signal_gate_amended c3WitnessInput (by decide)⟩

/-! ## C4: extraction-selection precedence -/

/-- Modelled from the spec's words (§4.5, treated as normative by the
claim): the three-way precedence — if the detail-page text is longer than
100 characters (stripped) it is primary and merged with the section text,
with the full raw main text substituted for the section text when the
section text is too thin (stripped length under 200, and there is raw text
to substitute); otherwise a substantial section text (nonempty, stripped
length over 100) is used alone; otherwise the full raw main-page text is
the last resort. -/
def specCombine (inp : ContentInput) : String :=
  let detail := effectiveDetailText inp
  let sectionText := inp.mainSectionText
  let raw := inp.mainInnerText
  if 100 < (strip detail).length then
    (if (strip sectionText).length < 200 ∧ raw ≠ "" then raw else sectionText)
      ++ "\n\n" ++ detail
  else if sectionText ≠ "" ∧ 100 < (strip sectionText).length then
    sectionText
  else
    raw

/-- C4: the combination step of `_scrape_profile_content` computes exactly
the spec's three-way precedence rule. -/
theorem c4_three_way_precedence (inp : ContentInput) :
    combineContent inp = specCombine inp := by
  simp only [combineContent, specCombine]
  by_cases hd : 100 < (strip (effectiveDetailText inp)).length
  · have hne : ¬(effectiveDetailText inp = "") := by
      intro h
      rw [h] at hd
      exact absurd hd (by decide)
    rw [if_pos ⟨hne, hd⟩, if_pos hd]
    by_cases hs : (strip inp.mainSectionText).length < 200 ∧ inp.mainInnerText ≠ ""
    · rw [if_pos hs, if_pos hs]
    · rw [if_neg hs, if_neg hs]
  · have hcond : ¬(effectiveDetailText inp ≠ "" ∧
        (strip (effectiveDetailText inp)).length > 100) :=
      fun hc => hd hc.2
    rw [if_neg hcond, if_neg hd]

/-! ## C9: the 50-character gate -/

/-- Extraction inputs with a substantial, signal-bearing section text but
raw page texts of fewer than 50 characters everywhere. -/
def c9Input : ContentInput :=
  { mainSectionText := c3WitnessText, budgetOkDetail := false, detailText := "",
    mainInnerText := "x", bodyText := "y" }

/-- C9 counterexample: every raw page text of this run is shorter than 50
characters, yet `_scrape_profile_content` proceeds through section-aware
extraction and succeeds — no 50-character length check short-circuits
before (or after) section-aware extraction inside the scraper.  (The
50-character gate exists, but in the downstream fetch agent.) -/
theorem c9_counterexample :
    c9Input.mainInnerText.length < 50 ∧
    c9Input.bodyText.length < 50 ∧
    (effectiveDetailText c9Input).length < 50 ∧
    scrapeProfileContent c9Input = .ok c3WitnessText :=
  ⟨by decide, by decide, by decide, by decide⟩

/-- C9 (amended): the 50-character fast gate is applied by the downstream
fetch agent (`linkedin_fetch_agent`, line 61) to the scraper's final
returned text, short-circuiting ahead of the agent's own 200-character +
signal gate; inside `_scrape_profile_content` no 50-character check exists:
a run whose section text passes the final 200-character and signal gates
succeeds regardless of how short the raw page texts are. -/
theorem c9_no_early_50_gate_amended :
    (∀ t : String, (strip t).length < 50 →
      fetchAgentValidate t = .error .emptyOrTooShort) ∧
    (∀ inp : ContentInput, inp.budgetOkDetail = false →
      200 ≤ (strip inp.mainSectionText).length →
      hasScraperSignal (strLower inp.mainSectionText) = true →
      scrapeProfileContent inp = .ok inp.mainSectionText) := by
  constructor
  · intro t h
    simp only [fetchAgentValidate]
    rw [if_pos (Or.inr h)]
  · intro inp hbud hlen hsig
    have hne : inp.mainSectionText ≠ "" := by
      intro h
      rw [h] at hlen
      exact absurd hlen (by decide)
    have hcomb : combineContent inp = inp.mainSectionText := by
      simp only [combineContent, effectiveDetailText, hbud]
      rw [if_neg (by simp), if_pos ⟨hne, by omega⟩]
    simp only [scrapeProfileContent, hcomb]
    rw [if_neg (by push_neg; exact ⟨hne, by omega⟩), if_neg (by simp [hsig])]

/-- C9 witness: the fetch agent rejects a 2-character text through the
50-character gate, and the scraper succeeds on a concrete run whose raw
texts are 1 character long. -/
theorem c9_no_early_50_gate_amended_witness :
    (strip "hi").length < 50 ∧
    fetchAgentValidate "hi" = .error .emptyOrTooShort ∧
    c9Input.budgetOkDetail = false ∧
    200 ≤ (strip c9Input.mainSectionText).length ∧
    hasScraperSignal (strLower c9Input.mainSectionText) = true ∧
    scrapeProfileContent c9Input = .ok c9Input.mainSectionText :=
  ⟨by decide, c9_no_early_50_gate_amended.1 "hi" (by decide), rfl, by decide, by decide,
   c9_no_early_50_gate_amended.2 c9Input rfl (by decide) (by decide)⟩

/-! ## Helper lemmas: session registry -/

/-- The registry invariant: no session key occurs twice (a Python dict
cannot hold duplicate keys). -/
def keysNodup (sessions : List (String × SessionData)) : Prop :=
  (sessions.map Prod.fst).Nodup

/-- After removing `sid`, looking it up finds nothing. -/
theorem lookupSession_removeSession_self (sid : String)
    (l : List (String × SessionData)) :
    lookupSession sid (removeSession sid l) = none := by
  induction l with
  | nil => rfl
  | cons p rest ih =>
    simp only [removeSession, List.filter_cons] at ih ⊢
    by_cases h : p.1 = sid
    · simpa [h] using ih
    · simpa [h, lookupSession] using ih

/-- Lookup skips a prefix that does not contain the key. -/
theorem lookupSession_append (sid : String) (l l' : List (String × SessionData))
    (h : lookupSession sid l = none) :
    lookupSession sid (l ++ l') = lookupSession sid l' := by
  induction l with
  | nil => rfl
  | cons p rest ih =>
    simp only [lookupSession, List.cons_append] at h ⊢
    by_cases hp : p.1 = sid
    · simp [hp] at h
    · simp only [hp, if_false] at h ⊢
      exact ih h

/-- A successful lookup exhibits a registry entry. -/
theorem lookupSession_mem (sid : String) {l : List (String × SessionData)}
    {data : SessionData} (h : lookupSession sid l = some data) :
    (sid, data) ∈ l := by
  induction l with
  | nil => simp [lookupSession] at h
  | cons p rest ih =>
    simp only [lookupSession] at h
    by_cases hp : p.1 = sid
    · rw [if_pos hp] at h
      have : p = (sid, data) := by
        obtain ⟨a, b⟩ := p
        simp at hp
        simp at h
        simp [hp, h]
      rw [← this]
      exact List.mem_cons_self p rest
    · rw [if_neg hp] at h
      exact List.mem_cons_of_mem p (ih h)

/-- Removal preserves key uniqueness. -/
theorem keysNodup_removeSession (sid : String) {l : List (String × SessionData)}
    (h : keysNodup l) : keysNodup (removeSession sid l) :=
  List.Nodup.sublist ((List.filter_sublist l).map Prod.fst) h

/-- The removed key is gone from the key list. -/
theorem not_mem_keys_removeSession (sid : String) (l : List (String × SessionData)) :
    sid ∉ (removeSession sid l).map Prod.fst := by
  intro hmem
  obtain ⟨p, hp, hfst⟩ := List.mem_map.mp hmem
  have hne := List.of_mem_filter hp
  simp only [decide_eq_true_eq] at hne
  exact hne hfst

/-- The sessions of a parked world: the key's old entries removed, the new
entry appended. -/
theorem parkSession_sessions (sid : String) (d : Nat) (profileUrl : String)
    (w : World) :
    (parkSession sid d profileUrl w).sessions =
      removeSession sid w.sessions ++ [(sid, ⟨d, profileUrl, w.now⟩)] := by
  unfold parkSession
  cases lookupSession sid w.sessions <;> rfl

/-- The quit record of a parked world: exactly the evicted entry's driver
(when one existed) is quit. -/
theorem parkSession_quitCalls (sid : String) (d : Nat) (profileUrl : String)
    (w : World) :
    (parkSession sid d profileUrl w).quitCalls =
      (match lookupSession sid w.sessions with
       | some old => w.quitCalls ++ [old.driverId]
       | none => w.quitCalls) := by
  unfold parkSession
  cases lookupSession sid w.sessions <;> rfl

/-! ## C2: session-key uniqueness -/

/-- C2: parking preserves the at-most-one-entry-per-key invariant; the new
entry is findable under the key with `created` set to the current time; a
previously parked entry under the same key has its driver quit (exactly
once, before the insertion) while parking a fresh key quits nothing; and
every other registry mutation of the module (stale sweep, entry removal,
explicit cleanup, TTL refresh) also preserves the invariant. -/
theorem c2_session_key_uniqueness (sid : String) (d : Nat) (profileUrl : String)
    (w : World) (h : keysNodup w.sessions) :
    keysNodup (parkSession sid d profileUrl w).sessions ∧
    lookupSession sid (parkSession sid d profileUrl w).sessions =
      some ⟨d, profileUrl, w.now⟩ ∧
    (∀ old, lookupSession sid w.sessions = some old →
      (parkSession sid d profileUrl w).quitCalls = w.quitCalls ++ [old.driverId]) ∧
    (lookupSession sid w.sessions = none →
      (parkSession sid d profileUrl w).quitCalls = w.quitCalls) ∧
    keysNodup (cleanupStaleSessions w).sessions ∧
    keysNodup (popSession sid w).sessions ∧
    keysNodup (cleanupSession sid w).sessions ∧
    keysNodup (refreshSession sid w).sessions := by
  refine ⟨?_, ?_, ?_, ?_, ?_, ?_, ?_, ?_⟩
  · rw [parkSession_sessions]
    unfold keysNodup
    rw [List.map_append]
    refine List.Nodup.append (keysNodup_removeSession sid h) (List.nodup_singleton sid) ?_
    intro a ha hb
    simp only [List.map_cons, List.map_nil, List.mem_singleton] at hb
    exact not_mem_keys_removeSession sid w.sessions (hb ▸ ha)
  · rw [parkSession_sessions,
      lookupSession_append sid _ _ (lookupSession_removeSession_self sid w.sessions)]
    simp [lookupSession]
  · intro old hold
    rw [parkSession_quitCalls, hold]
  · intro hnone
    rw [parkSession_quitCalls, hnone]
  · exact List.Nodup.sublist ((List.filter_sublist w.sessions).map Prod.fst) h
  · exact keysNodup_removeSession sid h
  · unfold cleanupSession
    cases lookupSession sid w.sessions <;>
      exact keysNodup_removeSession sid h
  · unfold keysNodup refreshSession
    have : (w.sessions.map
        (fun p => (p.1, if p.1 = sid then { p.2 with created := w.now } else p.2))).map
          Prod.fst = w.sessions.map Prod.fst := by
      rw [List.map_map]
      apply List.map_congr_left
      intro p _
      rfl
    rw [this]
    exact h

/-- A concrete world for the C2 witness: one parked session under "u1"
with driver 7. -/
def c2World : World :=
  { sessions := [("u1", ⟨7, "https://p", 0⟩)], quitCalls := [],
    nextDriverId := 10, now := 50 }

/-- C2 witness: parking driver 9 under the already-used key "u1" quits
driver 7 and leaves a single entry with `created = 50`. -/
theorem c2_session_key_uniqueness_witness :
    keysNodup (parkSession "u1" 9 "https://q" c2World).sessions ∧
    lookupSession "u1" (parkSession "u1" 9 "https://q" c2World).sessions =
      some ⟨9, "https://q", 50⟩ ∧
    (parkSession "u1" 9 "https://q" c2World).quitCalls = [] ++ [7] := by
  have h := c2_session_key_uniqueness "u1" 9 "https://q" c2World
    (by unfold keysNodup; decide)
  exact ⟨h.1, h.2.1, h.2.2.1 ⟨7, "https://p", 0⟩ (by decide)⟩

/-! ## Helper lemmas: orchestrators -/

/-- The stale sweep does not touch the driver-id supply. -/
@[simp] theorem cleanupStaleSessions_nextDriverId (w : World) :
    (cleanupStaleSessions w).nextDriverId = w.nextDriverId := rfl

/-- The stale sweep does not touch the clock. -/
@[simp] theorem cleanupStaleSessions_now (w : World) :
    (cleanupStaleSessions w).now = w.now := rfl

/-- A driver quit by the stale sweep was either already recorded or belongs
to a session that was present before the sweep. -/
theorem mem_quitCalls_cleanupStale {w : World} {d : Nat}
    (h : d ∈ (cleanupStaleSessions w).quitCalls) :
    d ∈ w.quitCalls ∨ ∃ p ∈ w.sessions, p.2.driverId = d := by
  simp only [cleanupStaleSessions, List.mem_append, List.mem_map] at h
  rcases h with h | ⟨p, hp, hd⟩
  · exact Or.inl h
  · exact Or.inr ⟨p, List.mem_of_mem_filter hp, hd⟩

/-- Sessions surviving the stale sweep were already present. -/
theorem mem_sessions_cleanupStale {w : World} {p : String × SessionData}
    (h : p ∈ (cleanupStaleSessions w).sessions) : p ∈ w.sessions :=
  List.mem_of_mem_filter h

/-- Looking up the refreshed key yields the old entry with `created`
updated to the refresh time. -/
theorem lookupSession_map_update (sid : String) (now : Nat) :
    ∀ l : List (String × SessionData),
      lookupSession sid (l.map
        (fun p => (p.1, if p.1 = sid then { p.2 with created := now } else p.2))) =
      (lookupSession sid l).map (fun v => { v with created := now }) := by
  intro l
  induction l with
  | nil => rfl
  | cons p rest ih =>
    obtain ⟨k, v⟩ := p
    simp only [List.map_cons, lookupSession_cons]
    by_cases hp : k = sid
    · rw [if_pos hp, if_pos hp, if_pos hp]
      rfl
    · rw [if_neg hp, if_neg hp]
      exact ih

/-- `refreshSession` rewrites only the entry under the refreshed key. -/
theorem lookupSession_refreshSession (sid : String) (w : World) :
    lookupSession sid (refreshSession sid w).sessions =
      (lookupSession sid w.sessions).map (fun v => { v with created := w.now }) := by
  simp only [refreshSession]
  exact lookupSession_map_update sid w.now w.sessions

/-! ## C10: credentials are checked before the driver exists -/

/-- C10: when the resolved email or password is absent,
`scrape_linkedin_profile` exits with the credentials error right after the
stale sweep: no driver id is consumed (no browser was created) and the
session registry holds no entry it did not already hold. -/
theorem c10_credentials_before_driver (inp : ScrapeInput) (beh : DriverBehavior)
    (w : World)
    (h : resolveCred inp.email inp.envEmail = none ∨
         resolveCred inp.password inp.envPassword = none) :
    scrape inp beh w = (.credentialsMissing, cleanupStaleSessions w) ∧
    (scrape inp beh w).2.nextDriverId = w.nextDriverId ∧
    ∀ p ∈ (scrape inp beh w).2.sessions, p ∈ w.sessions := by
  have hres : scrape inp beh w = (.credentialsMissing, cleanupStaleSessions w) := by
    rcases h with h | h
    · cases hp : resolveCred inp.password inp.envPassword <;>
        simp [scrape, h, hp]
    · cases he : resolveCred inp.email inp.envEmail <;>
        simp [scrape, h, he]
  refine ⟨hres, by rw [hres]; rfl, ?_⟩
  rw [hres]
  intro p hp
  exact mem_sessions_cleanupStale hp

/-- Arguments for the C10 witness: no email anywhere, password present. -/
def c10Input : ScrapeInput :=
  { profileUrl := "https://www.linkedin.com/in/x", email := none,
    password := some "pw", envEmail := none, envPassword := none,
    loginWait := none, sessionId := none }

/-- Driver behaviour for the C10 witness (never reached). -/
def c10Behavior : DriverBehavior :=
  { loginFormFails := false,
    samples := fun _ => ⟨"https://www.linkedin.com/login", ""⟩,
    content := ⟨"", false, "", "", ""⟩ }

/-- World for the C10 witness: one fresh parked session, driver supply at 3. -/
def c10World : World :=
  { sessions := [("u1", ⟨7, "https://p", 0⟩)], quitCalls := [],
    nextDriverId := 3, now := 10 }

/-- C10 witness: with a missing email the call reports the credentials
error and consumes no driver id. -/
theorem c10_credentials_before_driver_witness :
    scrape c10Input c10Behavior c10World =
      (.credentialsMissing, cleanupStaleSessions c10World) ∧
    (scrape c10Input c10Behavior c10World).2.nextDriverId = c10World.nextDriverId :=
  ⟨(c10_credentials_before_driver c10Input c10Behavior c10World (Or.inl rfl)).1,
   (c10_credentials_before_driver c10Input c10Behavior c10World (Or.inl rfl)).2.1⟩

/-! ## C8: inconclusive non-success and downstream extraction -/

/-- World for the C8 counterexample: one parked session under "u8". -/
def c8World : World :=
  { sessions := [("u8", ⟨3, "https://p", 0⟩)], quitCalls := [],
    nextDriverId := 10, now := 50 }

/-- Parked-driver behaviour for the C8 counterexample: alive, and every
observation is a login page with no hard-failure text and no challenge
keyword, so the poll exhausts inconclusively. -/
def c8ResumeBehavior : ResumeBehavior :=
  { driverAlive := true,
    samples := fun _ => ⟨"https://www.linkedin.com/login", "zzz"⟩,
    content := ⟨"", false, "", "", ""⟩ }

/-- C8 counterexample: on an inconclusive non-success
(`login_success = false`, `challenge_detected = false`)
`resume_linkedin_session` does NOT attempt extraction — it exits with the
unexpected-state error (lines 701-706), removing the session and quitting
the driver. -/
theorem c8_counterexample :
    (pollLogin c8ResumeBehavior.samples 3).1 = .finished false false ∧
    (resumeSession "u8" "https://p" 3 c8ResumeBehavior c8World).1 =
      .loginNotComplete ∧
    lookupSession "u8"
      (resumeSession "u8" "https://p" 3 c8ResumeBehavior c8World).2.sessions = none ∧
    (resumeSession "u8" "https://p" 3 c8ResumeBehavior c8World).2.quitCalls = [3] :=
  ⟨by decide, by decide, by decide, by decide⟩

/-- C8 (amended): after an inconclusive poll (neither success nor detected
challenge), `scrape_linkedin_profile` logs a warning and proceeds to the
extraction pipeline (its result is exactly the content pipeline's result);
`resume_linkedin_session`, by contrast, raises the terminal
login-did-not-complete error without attempting extraction. -/
theorem c8_inconclusive_amended :
    (∀ (inp : ScrapeInput) (beh : DriverBehavior) (w : World),
      resolveCred inp.email inp.envEmail ≠ none →
      resolveCred inp.password inp.envPassword ≠ none →
      beh.loginFormFails = false →
      (pollLogin beh.samples (inp.loginWait.getD 30)).1 = .finished false false →
      (scrape inp beh w).1 =
        (match scrapeProfileContent beh.content with
         | .ok t => ScrapeResult.ok t
         | .error e => ScrapeResult.contentError e)) ∧
    (∀ (sid profileUrl : String) (loginWait : Nat) (beh : ResumeBehavior)
        (w : World) (data : SessionData),
      lookupSession sid w.sessions = some data →
      beh.driverAlive = true →
      (pollLogin beh.samples loginWait).1 = .finished false false →
      (resumeSession sid profileUrl loginWait beh w).1 = .loginNotComplete) := by
  constructor
  · intro inp beh w hem hpw hlf hpoll
    obtain ⟨em, hem'⟩ := Option.ne_none_iff_exists'.mp hem
    obtain ⟨pw, hpw'⟩ := Option.ne_none_iff_exists'.mp hpw
    cases hc : scrapeProfileContent beh.content <;>
      simp [scrape, hem', hpw', hlf, hpoll, hc]
  · intro sid profileUrl loginWait beh w data hlook halive hpoll
    simp [resumeSession, hlook, halive, hpoll]

/-- Arguments for the scrape half of the C8 witness. -/
def c8ScrapeInput : ScrapeInput :=
  { profileUrl := "https://www.linkedin.com/in/x", email := some "e@x",
    password := some "pw", envEmail := none, envPassword := none,
    loginWait := some 3, sessionId := some "u9" }

/-- Driver behaviour for the scrape half of the C8 witness: inconclusive
poll, then a content run that succeeds. -/
def c8ScrapeBehavior : DriverBehavior :=
  { loginFormFails := false,
    samples := fun _ => ⟨"https://www.linkedin.com/login", "zzz"⟩,
    content := c3WitnessInput }

/-- C8 witness: on a concrete inconclusive run, scrape's result is the
content pipeline's result, while resume exits with the terminal error. -/
theorem c8_inconclusive_amended_witness :
    (pollLogin c8ScrapeBehavior.samples (c8ScrapeInput.loginWait.getD 30)).1 =
      .finished false false ∧
    (scrape c8ScrapeInput c8ScrapeBehavior c8World).1 =
      (match scrapeProfileContent c8ScrapeBehavior.content with
       | .ok t => ScrapeResult.ok t
       | .error e => ScrapeResult.contentError e) ∧
    (resumeSession "u8" "https://p" 3 c8ResumeBehavior c8World).1 =
      .loginNotComplete :=
  ⟨by decide,
   c8_inconclusive_amended.1 c8ScrapeInput c8ScrapeBehavior c8World
     (by decide) (by decide) rfl (by decide),
   c8_inconclusive_amended.2 "u8" "https://p" 3 c8ResumeBehavior c8World
     ⟨3, "https://p", 0⟩ (by decide) rfl (by decide)⟩

/-! ## C1: browser-resource cleanup on every exit path -/

/-- C1: in `scrape_linkedin_profile`, once a driver has been launched
(credentials resolved), every exit quits it except exactly the
security-challenge exit, which instead parks it in the registry under the
supplied session key (and quits only the evicted older driver, never the
fresh one).  In `resume_linkedin_session`, every exit on a found session
removes the entry and quits its driver, except exactly the renewed
security-challenge exit, which keeps the entry (TTL refreshed) and quits
nothing. -/
theorem c1_browser_cleanup :
    (∀ (inp : ScrapeInput) (beh : DriverBehavior) (w : World),
      resolveCred inp.email inp.envEmail ≠ none →
      resolveCred inp.password inp.envPassword ≠ none →
      ((∀ sid, (scrape inp beh w).1 ≠ .securityChallenge sid) →
        w.nextDriverId ∈ (scrape inp beh w).2.quitCalls) ∧
      (∀ sid, (scrape inp beh w).1 = .securityChallenge sid →
        inp.sessionId = some sid ∧
        lookupSession sid (scrape inp beh w).2.sessions =
          some ⟨w.nextDriverId, inp.profileUrl, w.now⟩ ∧
        (w.nextDriverId ∉ w.quitCalls →
          (∀ p, p ∈ w.sessions → p.2.driverId ≠ w.nextDriverId) →
          w.nextDriverId ∉ (scrape inp beh w).2.quitCalls))) ∧
    (∀ (sid profileUrl : String) (loginWait : Nat) (beh : ResumeBehavior)
        (w : World) (data : SessionData),
      lookupSession sid w.sessions = some data →
      (((resumeSession sid profileUrl loginWait beh w).1 =
          .securityChallenge sid →
        lookupSession sid
            (resumeSession sid profileUrl loginWait beh w).2.sessions =
          some { data with created := w.now } ∧
        (resumeSession sid profileUrl loginWait beh w).2.quitCalls =
          w.quitCalls) ∧
      ((∀ s, (resumeSession sid profileUrl loginWait beh w).1 ≠
          .securityChallenge s) →
        lookupSession sid
            (resumeSession sid profileUrl loginWait beh w).2.sessions = none ∧
        data.driverId ∈
          (resumeSession sid profileUrl loginWait beh w).2.quitCalls))) := by
  constructor
  · intro inp beh w hem hpw
    obtain ⟨em, hem'⟩ := Option.ne_none_iff_exists'.mp hem
    obtain ⟨pw, hpw'⟩ := Option.ne_none_iff_exists'.mp hpw
    cases hlf : beh.loginFormFails
    case true =>
      refine ⟨fun _ => ?_, fun sid hcontra => ?_⟩
      · simp [scrape, hem', hpw', hlf, quitDriver]
        try exact Or.inr rfl
      · simp [scrape, hem', hpw', hlf] at hcontra
    case false =>
      cases hpoll : (pollLogin beh.samples (inp.loginWait.getD 30)).1 with
      | hardFailure =>
        refine ⟨fun _ => ?_, fun sid hcontra => ?_⟩
        · simp [scrape, hem', hpw', hlf, hpoll, quitDriver]
          try exact Or.inr rfl
        · simp [scrape, hem', hpw', hlf, hpoll] at hcontra
      | finished ls cd =>
        by_cases hch : (!ls && cd) = true
        · cases hsid : inp.sessionId with
          | none =>
            refine ⟨fun _ => ?_, fun sid hcontra => ?_⟩
            · simp [scrape, hem', hpw', hlf, hpoll, hch, hsid, quitDriver]
              try exact Or.inr rfl
            · simp [scrape, hem', hpw', hlf, hpoll, hch, hsid] at hcontra
          | some s =>
            refine ⟨fun hne => ?_, fun sid hres => ?_⟩
            · exfalso
              refine hne s ?_
              simp [scrape, hem', hpw', hlf, hpoll, hch, hsid]
            · have hres' : s = sid := by
                simp [scrape, hem', hpw', hlf, hpoll, hch, hsid] at hres
                exact hres
              rw [← hres']
              have hsess : (scrape inp beh w).2.sessions =
                  removeSession s (cleanupStaleSessions w).sessions ++
                    [(s, ⟨w.nextDriverId, inp.profileUrl, w.now⟩)] := by
                simp [scrape, hem', hpw', hlf, hpoll, hch, hsid,
                  parkSession_sessions]
              have hquit : (scrape inp beh w).2.quitCalls =
                  (match lookupSession s (cleanupStaleSessions w).sessions with
                   | some old => (cleanupStaleSessions w).quitCalls ++ [old.driverId]
                   | none => (cleanupStaleSessions w).quitCalls) := by
                simp [scrape, hem', hpw', hlf, hpoll, hch, hsid,
                  parkSession_quitCalls]
              refine ⟨rfl, ?_, ?_⟩
              · rw [hsess, lookupSession_append s _ _
                  (lookupSession_removeSession_self s _)]
                simp [lookupSession]
              · intro hq hs hmem
                rw [hquit] at hmem
                cases hold : lookupSession s (cleanupStaleSessions w).sessions with
                | none =>
                  rw [hold] at hmem
                  rcases mem_quitCalls_cleanupStale hmem with h | ⟨p, hp, hd⟩
                  · exact hq h
                  · exact hs p hp hd
                | some old =>
                  rw [hold] at hmem
                  rcases List.mem_append.mp hmem with h | h
                  · rcases mem_quitCalls_cleanupStale h with h | ⟨p, hp, hd⟩
                    · exact hq h
                    · exact hs p hp hd
                  · rw [List.mem_singleton] at h
                    have hpmem := mem_sessions_cleanupStale (lookupSession_mem s hold)
                    exact hs (s, old) hpmem h.symm
        · refine ⟨fun _ => ?_, fun sid hcontra => ?_⟩
          · cases hc : scrapeProfileContent beh.content <;>
              · simp [scrape, hem', hpw', hlf, hpoll, hch, hc, quitDriver]
                try exact Or.inr rfl
          · cases hc : scrapeProfileContent beh.content <;>
              simp [scrape, hem', hpw', hlf, hpoll, hch, hc] at hcontra
  · intro sid profileUrl loginWait beh w data hlook
    cases halive : beh.driverAlive
    case false =>
      refine ⟨fun hcontra => ?_, fun _ => ?_⟩
      · simp [resumeSession, hlook, halive] at hcontra
      · constructor
        · simp [resumeSession, hlook, halive, popSession, quitDriver,
            lookupSession_removeSession_self]
        · simp [resumeSession, hlook, halive, popSession, quitDriver]
    case true =>
      cases hpoll : (pollLogin beh.samples loginWait).1 with
      | hardFailure =>
        refine ⟨fun hcontra => ?_, fun _ => ?_⟩
        · simp [resumeSession, hlook, halive, hpoll] at hcontra
        · constructor
          · simp [resumeSession, hlook, halive, hpoll, popSession, quitDriver,
              lookupSession_removeSession_self]
          · simp [resumeSession, hlook, halive, hpoll, popSession, quitDriver]
      | finished ls cd =>
        by_cases hch : ls = false ∧ cd = true
        · obtain ⟨h1, h2⟩ := hch
          subst h1; subst h2
          refine ⟨fun _ => ?_, fun hne => ?_⟩
          · constructor
            · have : (resumeSession sid profileUrl loginWait beh w).2 =
                  refreshSession sid w := by
                simp [resumeSession, hlook, halive, hpoll]
              rw [this, lookupSession_refreshSession, hlook]
              rfl
            · have : (resumeSession sid profileUrl loginWait beh w).2 =
                  refreshSession sid w := by
                simp [resumeSession, hlook, halive, hpoll]
              rw [this]
              rfl
          · exfalso
            refine hne sid ?_
            simp [resumeSession, hlook, halive, hpoll]
        · cases ls with
          | true =>
            refine ⟨fun hcontra => ?_, fun _ => ?_⟩
            · cases hc : scrapeProfileContent beh.content <;>
                simp [resumeSession, hlook, halive, hpoll, hc] at hcontra
            · constructor
              · cases hc : scrapeProfileContent beh.content <;>
                  simp [resumeSession, hlook, halive, hpoll, hc, popSession,
                    quitDriver, lookupSession_removeSession_self]
              · cases hc : scrapeProfileContent beh.content <;>
                  simp [resumeSession, hlook, halive, hpoll, hc, popSession,
                    quitDriver]
          | false =>
            cases cd with
            | true => exact absurd ⟨rfl, rfl⟩ hch
            | false =>
              refine ⟨fun hcontra => ?_, fun _ => ?_⟩
              · simp [resumeSession, hlook, halive, hpoll] at hcontra
              · constructor
                · simp [resumeSession, hlook, halive, hpoll, popSession,
                    quitDriver, lookupSession_removeSession_self]
                · simp [resumeSession, hlook, halive, hpoll, popSession,
                    quitDriver]

/-- Arguments for the scrape half of the C1 witness: credentials present and
a session key supplied. -/
def c1ScrapeInput : ScrapeInput :=
  { profileUrl := "https://www.linkedin.com/in/z", email := some "e@x",
    password := some "pw", envEmail := none, envPassword := none,
    loginWait := some 3, sessionId := some "u1" }

/-- Driver behaviour for the C1 witness: every observation is a checkpoint
page whose body mentions "security", so the poll times out with a detected
challenge. -/
def c1ScrapeBehavior : DriverBehavior :=
  { loginFormFails := false,
    samples := fun _ =>
      ⟨"https://www.linkedin.com/checkpoint/challenge/x", "security verification sent"⟩,
    content := ⟨"", false, "", "", ""⟩ }

/-- Empty world for the scrape half of the C1 witness. -/
def c1World : World :=
  { sessions := [], quitCalls := [], nextDriverId := 0, now := 5 }

/-- World for the resume half of the C1 witness: one parked session. -/
def c1ResumeWorld : World :=
  { sessions := [("u1", ⟨4, "https://q", 2⟩)], quitCalls := [],
    nextDriverId := 5, now := 9 }

/-- Parked-driver behaviour for the resume half of the C1 witness: alive,
challenge still pending. -/
def c1ResumeBehavior : ResumeBehavior :=
  { driverAlive := true,
    samples := fun _ =>
      ⟨"https://www.linkedin.com/checkpoint/challenge/x", "security verification sent"⟩,
    content := ⟨"", false, "", "", ""⟩ }

/-- C1 witness: on the parked scrape exit the fresh driver 0 sits in the
registry and is not quit; on the renewed-challenge resume exit the session
survives with refreshed TTL and no driver is quit. -/
theorem c1_browser_cleanup_witness :
    (scrape c1ScrapeInput c1ScrapeBehavior c1World).1 = .securityChallenge "u1" ∧
    lookupSession "u1" (scrape c1ScrapeInput c1ScrapeBehavior c1World).2.sessions =
      some ⟨0, "https://www.linkedin.com/in/z", 5⟩ ∧
    (0 ∉ (scrape c1ScrapeInput c1ScrapeBehavior c1World).2.quitCalls) ∧
    (resumeSession "u1" "https://p" 3 c1ResumeBehavior c1ResumeWorld).1 =
      .securityChallenge "u1" ∧
    lookupSession "u1"
        (resumeSession "u1" "https://p" 3 c1ResumeBehavior c1ResumeWorld).2.sessions =
      some ⟨4, "https://q", 9⟩ ∧
    (resumeSession "u1" "https://p" 3 c1ResumeBehavior c1ResumeWorld).2.quitCalls =
      c1ResumeWorld.quitCalls := by
  have hs := (c1_browser_cleanup.1 c1ScrapeInput c1ScrapeBehavior c1World
    (by decide) (by decide)).2 "u1" (by decide)
  have hr := (c1_browser_cleanup.2 "u1" "https://p" 3 c1ResumeBehavior c1ResumeWorld
    ⟨4, "https://q", 2⟩ (by decide)).1 (by decide)
  exact ⟨by decide, hs.2.1, hs.2.2 (by decide) (by decide), by decide, hr.1, hr.2⟩

end LinkedInScraper
